import Mathlib

/-!
Shallow embedding of the startup/state-orchestration shell of the launcher
(`src/renderer/app.tsx`): the two-stage collection load with its fallback
policy, the image-index registration, the central-state join, the
preference write-through setters, the log subscription lifecycle and the
one-shot search-to-navigation flag.

External collaborators whose code is not part of the repository fragment
(`GameImageCollection`, `LaunchboxData.fetchPlatforms`, the main-process log
channel, `Paths`) are modelled from the specification; each such definition
carries a doc comment saying so.
-/

namespace Launcher

/-- A single game record of the collection.  Only the fields the
orchestrator-level properties talk about are kept: an identifying title and
the platform the record belongs to. -/
structure IGame where
  title : String
  platform : String
  deriving DecidableEq, Repr

/-- `IGameCollection` (from `src/shared/game/interfaces`): an ordered
sequence of game records. -/
structure IGameCollection where
  games : List IGame
  deriving DecidableEq, Repr

/-- Modelled from the spec: `BrowsePageLayout` is the enum of browse-page
layouts (source file not in the fragment). -/
inductive BrowsePageLayout where
  | list
  | grid
  deriving DecidableEq, Repr

/-- `IAppConfigData`: the immutable startup configuration snapshot; only the
fields `app.tsx` reads are kept. -/
structure IAppConfigData where
  flashpointPath : String
  useCustomTitlebar : Bool
  deriving DecidableEq, Repr

/-- `window.External.preferences.data`: the persisted preferences record. -/
structure IPreferencesData where
  browsePageGameScale : ℚ
  browsePageLayout : BrowsePageLayout
  browsePageShowExtreme : Bool
  deriving DecidableEq, Repr

/-- Modelled from the spec: `GameImageCollection` (`ImageIndexBuilder`,
source file not in the fragment).  It records the root path and the set of
registered platform names; it only indexes names, never image bytes. -/
structure GameImageCollection where
  flashpointPath : String
  platforms : List String
  deriving DecidableEq, Repr

/-- Modelled from the spec: `new GameImageCollection(rootPath)` starts with
no platform registered. -/
def GameImageCollection.create (rootPath : String) : GameImageCollection :=
  { flashpointPath := rootPath, platforms := [] }

/-- Modelled from the spec: `addPlatforms` registers platform names
incrementally and is idempotent — re-adding a known platform is a no-op,
not a duplicate entry. -/
def GameImageCollection.addPlatforms (g : GameImageCollection)
    (names : List String) : GameImageCollection :=
  names.foldl
    (fun acc n =>
      if n ∈ acc.platforms then acc
      else { acc with platforms := acc.platforms ++ [n] })
    g

/-- `ISearchOnSearchEvent`: the payload of a search submission. -/
structure ISearchOnSearchEvent where
  input : String
  deriving DecidableEq, Repr

/-- Modelled from the spec: `IGameOrderChangeEvent` is a transient
most-recent-wins record describing the last sort action. -/
structure IGameOrderChangeEvent where
  orderBy : String
  orderReverse : String
  deriving DecidableEq, Repr

/-- `ICentralState`: the joined snapshot of collection, root path and
image index. -/
structure ICentralState where
  collection : IGameCollection
  flashpointPath : String
  gameImages : GameImageCollection
  deriving DecidableEq, Repr

/-- `IAppState`: the component state of `App`. -/
structure IAppState where
  central : Option ICentralState
  search : Option ISearchOnSearchEvent
  order : Option IGameOrderChangeEvent
  logData : String
  config : IAppConfigData
  gameScale : ℚ
  gameLayout : BrowsePageLayout
  showExtreme : Bool
  useCustomTitlebar : Bool
  deriving DecidableEq, Repr

/-- The full observable model of the `App` component: its React state, the
instance-level one-shot `_onSearch` flag, and the persisted preferences
store it writes through to. -/
structure AppModel where
  state : IAppState
  onSearchFlag : Bool
  prefs : IPreferencesData
  deriving DecidableEq, Repr

namespace App

/-- The synchronous part of the `App` constructor: the initial state built
from the config snapshot and the preferences store. -/
def initState (config : IAppConfigData) (prefs : IPreferencesData) : IAppState :=
  { central := none
    search := none
    order := none
    logData := ""
    config := config
    gameScale := prefs.browsePageGameScale
    gameLayout := prefs.browsePageLayout
    showExtreme := prefs.browsePageShowExtreme
    useCustomTitlebar := config.useCustomTitlebar }

/-- The initial `AppModel` at construction time: `_onSearch` starts false. -/
def initModel (config : IAppConfigData) (prefs : IPreferencesData) : AppModel :=
  { state := initState config prefs, onSearchFlag := false, prefs := prefs }

/-- `App.onDataLoaded`: joins the image index and the (possibly absent)
collection into the central state; `collection || ⟨[]⟩` defaults an absent
collection to the empty one. -/
def onDataLoaded (m : AppModel) (gameImages : GameImageCollection)
    (collection : Option IGameCollection) : AppModel :=
  { m with
    state := { m.state with
      central := some
        { collection := collection.getD { games := [] }
          flashpointPath := m.state.config.flashpointPath
          gameImages := gameImages } } }

/-- `platform.split('.')[0]`: the platform name derived from a platform
definition filename. -/
def platformNameOf (filename : String) : String :=
  (filename.splitOn ".").headD ""

/-- One observable step of the constructor load chain. -/
inductive LoadEvent where
  | addPlatformsEv (names : List String)
  | dataLoadedEv (gameImages : GameImageCollection) (collection : Option IGameCollection)
  deriving DecidableEq, Repr

/-- Whether a load event is an invocation of `onDataLoaded`. -/
def LoadEvent.isDataLoaded : LoadEvent → Bool
  | .dataLoadedEv _ _ => true
  | .addPlatformsEv _ => false

/-- The constructor load chain of `App` as the ordered trace of its
observable steps.  `stage1` is the injected settlement of
`LaunchboxData.fetchPlatformFilenames`; `stage2` the injected settlement of
`LaunchboxData.fetchPlatforms` on the resolved filenames.  On a stage-1
success the platform names are registered into the image index, then stage
2 runs; either `.catch` branch calls `onDataLoaded` without a collection. -/
def loadChainTrace (config : IAppConfigData)
    (stage1 : Except String (List String))
    (stage2 : List String → Except String IGameCollection) : List LoadEvent :=
  let gameImages := GameImageCollection.create config.flashpointPath
  match stage1 with
  | .ok platformFilenames =>
    let platforms := platformFilenames.map platformNameOf
    let gameImages1 := gameImages.addPlatforms platforms
    match stage2 platformFilenames with
    | .ok collection =>
        [.addPlatformsEv platforms, .dataLoadedEv gameImages1 (some collection)]
    | .error _ =>
        [.addPlatformsEv platforms, .dataLoadedEv gameImages1 none]
  | .error _ => [.dataLoadedEv gameImages none]

/-- Applying one load event to the model: `addPlatforms` mutates only the
image index being built (visible through the later `dataLoadedEv`), while
`dataLoadedEv` performs the `onDataLoaded` state transition. -/
def applyLoadEvent (m : AppModel) : LoadEvent → AppModel
  | .addPlatformsEv _ => m
  | .dataLoadedEv g c => onDataLoaded m g c

/-- Running the whole load chain over the model. -/
def runLoadChain (m : AppModel) (stage1 : Except String (List String))
    (stage2 : List String → Except String IGameCollection) : AppModel :=
  (loadChainTrace m.state.config stage1 stage2).foldl applyLoadEvent m

/-- Modelled from the spec: `LaunchboxData.fetchPlatforms` (source file not
in the fragment) parses each resolved platform source into game records and
merges them into one collection, in the order the names were resolved.
`gamesOf` gives the records parsed from one source. -/
def fetchPlatformsModel (gamesOf : String → List IGame)
    (platformFilenames : List String) : IGameCollection :=
  { games := (platformFilenames.map gamesOf).flatten }

/-- `App.onLogDataUpdate`: each delivered snapshot is the full log and
replaces `logData` wholesale. -/
def onLogDataUpdate (m : AppModel) (fullLog : String) : AppModel :=
  { m with state := { m.state with logData := fullLog } }

/-- `App.onSearch`: arms the one-shot `_onSearch` flag and records the
search payload. -/
def onSearch (m : AppModel) (event : ISearchOnSearchEvent) : AppModel :=
  { m with
    onSearchFlag := true
    state := { m.state with search := some event } }

/-- `App.onOrderChange`: records the last order event; it touches nothing
else and writes nothing to the preferences store. -/
def onOrderChange (m : AppModel) (event : IGameOrderChangeEvent) : AppModel :=
  { m with state := { m.state with order := some event } }

/-- `App.onScaleSliderChange`: updates the in-memory scale, then writes the
same value through to the persisted preferences. -/
def onScaleSliderChange (m : AppModel) (value : ℚ) : AppModel :=
  { m with
    state := { m.state with gameScale := value }
    prefs := { m.prefs with browsePageGameScale := value } }

/-- `App.onLayoutSelectorChange`: updates the in-memory layout, then writes
the same value through to the persisted preferences. -/
def onLayoutSelectorChange (m : AppModel) (value : BrowsePageLayout) : AppModel :=
  { m with
    state := { m.state with gameLayout := value }
    prefs := { m.prefs with browsePageLayout := value } }

/-- `App.onExtremeChange`: updates the in-memory toggle, then writes the
same value through to the persisted preferences. -/
def onExtremeChange (m : AppModel) (isChecked : Bool) : AppModel :=
  { m with
    state := { m.state with showExtreme := isChecked }
    prefs := { m.prefs with browsePageShowExtreme := isChecked } }

end App

/-- Modelled from the spec: `Paths.browse` (source file not in the
fragment), the route of the browse view the navigation instruction
targets. -/
def Paths.browse : String := "/browse"

/-- The navigation instruction emitted by `render`: a `Redirect` element
with its target and push flag. -/
structure Redirect where
  toPath : String
  push : Bool
  deriving DecidableEq, Repr

namespace App

/-- The redirect-emitting head of `App.render`: if `_onSearch` is set, it is
cleared and exactly one `Redirect` to the browse page is emitted; otherwise
no redirect is emitted and the model is untouched. -/
def renderRedirect (m : AppModel) : Option Redirect × AppModel :=
  if m.onSearchFlag then
    (some { toPath := Paths.browse, push := true }, { m with onSearchFlag := false })
  else
    (none, m)

/-- A preference-or-order interaction, for reasoning about sequences of
setter calls. -/
inductive PrefAction where
  | setScale (v : ℚ)
  | setLayout (v : BrowsePageLayout)
  | setExtreme (b : Bool)
  | orderChange (e : IGameOrderChangeEvent)
  deriving DecidableEq, Repr

/-- Dispatching one interaction to its handler. -/
def applyPrefAction (m : AppModel) : PrefAction → AppModel
  | .setScale v => onScaleSliderChange m v
  | .setLayout v => onLayoutSelectorChange m v
  | .setExtreme b => onExtremeChange m b
  | .orderChange e => onOrderChange m e

/-- Running a finite sequence of interactions. -/
def runPrefActions (m : AppModel) (acts : List PrefAction) : AppModel :=
  acts.foldl applyPrefAction m

/-- The last scale value set in a sequence of interactions, defaulting to
`d` when none sets it. -/
def lastScaleD (d : ℚ) : List PrefAction → ℚ
  | [] => d
  | .setScale v :: rest => lastScaleD v rest
  | _ :: rest => lastScaleD d rest

/-- The last layout value set in a sequence of interactions, defaulting to
`d` when none sets it. -/
def lastLayoutD (d : BrowsePageLayout) : List PrefAction → BrowsePageLayout
  | [] => d
  | .setLayout v :: rest => lastLayoutD v rest
  | _ :: rest => lastLayoutD d rest

/-- The last extreme-toggle value set in a sequence of interactions,
defaulting to `d` when none sets it. -/
def lastExtremeD (d : Bool) : List PrefAction → Bool
  | [] => d
  | .setExtreme b :: rest => lastExtremeD b rest
  | _ :: rest => lastExtremeD d rest

/-- The write-through invariant: the in-memory preference values agree with
the persisted store. -/
def prefsSynced (m : AppModel) : Prop :=
  m.state.gameScale = m.prefs.browsePageGameScale ∧
  m.state.gameLayout = m.prefs.browsePageLayout ∧
  m.state.showExtreme = m.prefs.browsePageShowExtreme

instance (m : AppModel) : Decidable (prefsSynced m) := by
  unfold prefsSynced; infer_instance

/-- Any handler of the component other than a new search submission: used
to show nothing but `onSearch` can arm the navigation flag. -/
inductive OtherEvent where
  | pref (a : PrefAction)
  | logUpdate (s : String)
  | dataLoaded (g : GameImageCollection) (c : Option IGameCollection)
  | renderPass
  deriving Repr

/-- Applying a non-search event to the model (a render pass applies the
redirect-emitting head of `render`). -/
def applyOther (m : AppModel) : OtherEvent → AppModel
  | .pref a => applyPrefAction m a
  | .logUpdate s => onLogDataUpdate m s
  | .dataLoaded g c => onDataLoaded m g c
  | .renderPass => (renderRedirect m).2

end App

/-- Modelled from the spec: the main-process side of the log channel
(`LogChannel`, source not in the fragment).  It owns the full log buffer
and knows whether the renderer's listener is attached. -/
structure LogChannelModel where
  log : String
  listenerAttached : Bool
  deriving DecidableEq, Repr

/-- The renderer component together with the log channel. -/
structure SystemModel where
  app : AppModel
  channel : LogChannelModel
  delivered : Nat
  deriving DecidableEq, Repr

/-- A lifecycle-level event of the log bridge. -/
inductive LogEvent where
  | emit (line : String)
  | mountEv
  | unmountEv
  deriving DecidableEq, Repr

/-- Modelled from the spec: a push delivery of the full current log
snapshot.  It is applied through `App.onLogDataUpdate` only while the
listener is attached; `delivered` counts applied snapshots. -/
def deliverSnapshot (s : SystemModel) : SystemModel :=
  if s.channel.listenerAttached then
    { s with
      app := App.onLogDataUpdate s.app s.channel.log
      delivered := s.delivered + 1 }
  else s

/-- One lifecycle step.  `emit` appends to the main-process buffer and
pushes a snapshot; `mountEv` is `componentDidMount` (attach the listener,
then `resendLogDataUpdate` forces one replay delivery); `unmountEv` is
`componentWillUnmount` (remove the listener, delivering nothing). -/
def stepLog (s : SystemModel) : LogEvent → SystemModel
  | .emit line =>
      deliverSnapshot
        { s with channel := { s.channel with log := s.channel.log ++ line } }
  | .mountEv =>
      deliverSnapshot
        { s with channel := { s.channel with listenerAttached := true } }
  | .unmountEv =>
      { s with channel := { s.channel with listenerAttached := false } }

/-- Running a sequence of lifecycle steps. -/
def runLog (s : SystemModel) (evs : List LogEvent) : SystemModel :=
  evs.foldl stepLog s

/-- Whether a load event is the platform-registration step. -/
def App.LoadEvent.isAddPlatforms : App.LoadEvent → Bool
  | .addPlatformsEv _ => true
  | .dataLoadedEv _ _ => false

/-- A concrete configuration used to instantiate the theorems below. -/
def sampleConfig : IAppConfigData :=
  { flashpointPath := "/flashpoint", useCustomTitlebar := false }

/-- A concrete preferences record used to instantiate the theorems below. -/
def samplePrefs : IPreferencesData :=
  { browsePageGameScale := 1, browsePageLayout := .grid, browsePageShowExtreme := false }

/-- The model right after the synchronous part of the constructor ran on
the sample configuration. -/
def sampleModel : AppModel := App.initModel sampleConfig samplePrefs

/- ------------------------------------------------------------------ -/
/- Helper lemmas                                                       -/
/- ------------------------------------------------------------------ -/

theorem addPlatforms_cons (g : GameImageCollection) (a : String) (rest : List String) :
    g.addPlatforms (a :: rest) =
      (if a ∈ g.platforms then g
       else { g with platforms := g.platforms ++ [a] }).addPlatforms rest := rfl

theorem mem_addPlatforms_of_mem :
    ∀ (names : List String) (g : GameImageCollection) (n : String),
      n ∈ g.platforms → n ∈ (g.addPlatforms names).platforms := by
  intro names
  induction names with
  | nil => intro g n h; exact h
  | cons a rest ih =>
    intro g n h
    rw [addPlatforms_cons]
    by_cases ha : a ∈ g.platforms
    · rw [if_pos ha]; exact ih g n h
    · rw [if_neg ha]; exact ih _ n (by simp [h])

theorem mem_addPlatforms_of_mem_names :
    ∀ (names : List String) (g : GameImageCollection) (n : String),
      n ∈ names → n ∈ (g.addPlatforms names).platforms := by
  intro names
  induction names with
  | nil => intro g n h; cases h
  | cons a rest ih =>
    intro g n h
    rw [addPlatforms_cons]
    rcases List.mem_cons.mp h with rfl | hn
    · by_cases ha : n ∈ g.platforms
      · rw [if_pos ha]; exact mem_addPlatforms_of_mem rest _ n ha
      · rw [if_neg ha]; exact mem_addPlatforms_of_mem rest _ n (by simp)
    · by_cases ha : a ∈ g.platforms
      · rw [if_pos ha]; exact ih g n hn
      · rw [if_neg ha]; exact ih _ n hn

theorem loadChainTrace_error (config : IAppConfigData) (e : String)
    (stage2 : List String → Except String IGameCollection) :
    App.loadChainTrace config (Except.error e) stage2 =
      [App.LoadEvent.dataLoadedEv (GameImageCollection.create config.flashpointPath) none] := rfl

theorem loadChainTrace_ok (config : IAppConfigData) (fns : List String)
    (stage2 : List String → Except String IGameCollection) :
    App.loadChainTrace config (Except.ok fns) stage2 =
      [App.LoadEvent.addPlatformsEv (fns.map App.platformNameOf),
       App.LoadEvent.dataLoadedEv
         ((GameImageCollection.create config.flashpointPath).addPlatforms
            (fns.map App.platformNameOf))
         (stage2 fns).toOption] := by
  unfold App.loadChainTrace
  cases h : stage2 fns <;> simp [h, Except.toOption]

theorem runLoadChain_error (m : AppModel) (e : String)
    (stage2 : List String → Except String IGameCollection) :
    App.runLoadChain m (Except.error e) stage2 =
      App.onDataLoaded m (GameImageCollection.create m.state.config.flashpointPath) none := rfl

theorem getLastD_cons_eq (s d : String) (rest : List String) :
    (s :: rest).getLastD d = rest.getLastD s := by
  cases rest <;> simp [List.getLastD]

theorem runLoadChain_ok (m : AppModel) (fns : List String)
    (stage2 : List String → Except String IGameCollection) :
    App.runLoadChain m (Except.ok fns) stage2 =
      App.onDataLoaded m
        ((GameImageCollection.create m.state.config.flashpointPath).addPlatforms
           (fns.map App.platformNameOf))
        (stage2 fns).toOption := by
  unfold App.runLoadChain App.loadChainTrace
  cases h : stage2 fns <;> simp [h, App.applyLoadEvent, Except.toOption]

theorem prefsSynced_applyPrefAction (m : AppModel) (a : App.PrefAction)
    (h : App.prefsSynced m) : App.prefsSynced (App.applyPrefAction m a) := by
  obtain ⟨h1, h2, h3⟩ := h
  cases a <;>
    simp_all [App.applyPrefAction, App.onScaleSliderChange, App.onLayoutSelectorChange,
      App.onExtremeChange, App.onOrderChange, App.prefsSynced]

theorem emits_preserve_detached (s : SystemModel)
    (h : s.channel.listenerAttached = false) (lines : List String) :
    ((lines.map LogEvent.emit).foldl stepLog s).app = s.app ∧
    ((lines.map LogEvent.emit).foldl stepLog s).delivered = s.delivered ∧
    ((lines.map LogEvent.emit).foldl stepLog s).channel.listenerAttached = false := by
  induction lines generalizing s with
  | nil => exact ⟨rfl, rfl, h⟩
  | cons l rest ih =>
    have hstep : stepLog s (.emit l) =
        { s with channel := { s.channel with log := s.channel.log ++ l } } := by
      simp [stepLog, deliverSnapshot, h]
    have hdet : (stepLog s (.emit l)).channel.listenerAttached = false := by
      rw [hstep]; exact h
    have := ih (stepLog s (.emit l)) hdet
    simpa [hstep] using this

/- ------------------------------------------------------------------ -/
/- Claim theorems                                                      -/
/- ------------------------------------------------------------------ -/

/-- C1: for every run of the two-stage load in which either stage fails
(stage 1 rejects, or stage 2 rejects), the constructed central state has a
collection that is the empty sequence of games — the collection field is
never left absent after the load chain settles. -/
theorem c1_collection_empty_on_any_failure
    (m : AppModel) (stage1 : Except String (List String))
    (stage2 : List String → Except String IGameCollection)
    (hfail : (∃ e, stage1 = Except.error e) ∨
             (∃ fns e, stage1 = Except.ok fns ∧ stage2 fns = Except.error e)) :
    ∃ cs : ICentralState,
      (App.runLoadChain m stage1 stage2).state.central = some cs ∧
      cs.collection = { games := [] } := by
  rcases hfail with ⟨e, he⟩ | ⟨fns, e, h1, h2⟩
  · subst he
    rw [runLoadChain_error]
    exact ⟨_, rfl, rfl⟩
  · subst h1
    rw [runLoadChain_ok, h2]
    exact ⟨_, rfl, rfl⟩

/-- Witness for C1 at a concrete model, with stage 1 rejecting. -/
theorem c1_collection_empty_on_any_failure_witness :
    ∃ cs : ICentralState,
      (App.runLoadChain sampleModel (Except.error "ENOENT")
          (fun _ => Except.error "unreachable")).state.central = some cs ∧
      cs.collection = { games := [] } :=
  c1_collection_empty_on_any_failure sampleModel (Except.error "ENOENT")
    (fun _ => Except.error "unreachable") (Or.inl ⟨"ENOENT", rfl⟩)

/-- C2: whenever the central state is constructed after a stage-1 success,
every platform name resolved by stage 1 is already registered in the image
index at each `onDataLoaded` step of the trace, and in the resulting
central state. -/
theorem c2_platforms_registered_before_central
    (m : AppModel) (fns : List String)
    (stage2 : List String → Except String IGameCollection) :
    (∀ g c, App.LoadEvent.dataLoadedEv g c ∈
        App.loadChainTrace m.state.config (Except.ok fns) stage2 →
      ∀ p ∈ fns.map App.platformNameOf, p ∈ g.platforms) ∧
    (∃ cs, (App.runLoadChain m (Except.ok fns) stage2).state.central = some cs ∧
      ∀ p ∈ fns.map App.platformNameOf, p ∈ cs.gameImages.platforms) := by
  constructor
  · intro g c hmem p hp
    rw [loadChainTrace_ok] at hmem
    simp only [List.mem_cons, List.not_mem_nil, or_false, reduceCtorEq, false_or,
      App.LoadEvent.dataLoadedEv.injEq] at hmem
    obtain ⟨rfl, -⟩ := hmem
    exact mem_addPlatforms_of_mem_names _ _ p hp
  · rw [runLoadChain_ok]
    exact ⟨_, rfl, fun p hp => mem_addPlatforms_of_mem_names _ _ p hp⟩

/-- Witness for C2 at a concrete model and a concrete resolved filename
list, extracting the final-state half of the conjunction. -/
theorem c2_platforms_registered_before_central_witness :
    ∃ cs, (App.runLoadChain sampleModel (Except.ok ["Arcade.xml", "Flash.xml"])
        (fun _ => Except.ok { games := [] })).state.central = some cs ∧
      ∀ p ∈ (["Arcade.xml", "Flash.xml"].map App.platformNameOf),
        p ∈ cs.gameImages.platforms :=
  (c2_platforms_registered_before_central sampleModel ["Arcade.xml", "Flash.xml"]
    (fun _ => Except.ok { games := [] })).2

/-- C3: for every successful two-stage load whose platform sources carry
the game lists given by `gamesOf`, the constructed central state's
collection is the concatenation of those lists in resolution order, and its
length is the sum of the per-platform game counts. -/
theorem c3_collection_length_is_sum_of_counts
    (m : AppModel) (fns : List String) (gamesOf : String → List IGame) :
    ∃ cs, (App.runLoadChain m (Except.ok fns)
          (fun names => Except.ok (App.fetchPlatformsModel gamesOf names))).state.central
        = some cs ∧
      cs.collection.games = (fns.map gamesOf).flatten ∧
      cs.collection.games.length = (fns.map (fun n => (gamesOf n).length)).sum := by
  rw [runLoadChain_ok]
  refine ⟨_, rfl, rfl, ?_⟩
  simp [App.fetchPlatformsModel, Except.toOption, List.length_flatten]
  rfl

/-- C6: the state-assembly step `onDataLoaded` appears exactly once in the
load-chain trace, for every settlement of the two stages — stage-2 success,
stage-2 failure, or stage-1 failure. -/
theorem c6_onDataLoaded_exactly_once
    (config : IAppConfigData) (stage1 : Except String (List String))
    (stage2 : List String → Except String IGameCollection) :
    (App.loadChainTrace config stage1 stage2).countP App.LoadEvent.isDataLoaded = 1 := by
  cases stage1 with
  | error e => rfl
  | ok fns =>
    rw [loadChainTrace_ok]
    simp [App.LoadEvent.isDataLoaded, List.countP_cons, List.countP_nil]

/-- C7: if stage 1 fails, stage 2 is skipped entirely — the trace contains
no platform-registration step, the resulting collection has length 0, and
the image index has zero registered platforms. -/
theorem c7_stage1_failure_skips_stage2
    (m : AppModel) (e : String)
    (stage2 : List String → Except String IGameCollection) :
    (App.loadChainTrace m.state.config (Except.error e) stage2).countP
        App.LoadEvent.isAddPlatforms = 0 ∧
    ∃ cs, (App.runLoadChain m (Except.error e) stage2).state.central = some cs ∧
      cs.collection.games.length = 0 ∧
      cs.gameImages.platforms = [] := by
  refine ⟨rfl, ?_⟩
  rw [runLoadChain_error]
  exact ⟨_, rfl, rfl, rfl⟩

/-- C4: for any finite sequence of preference setter calls, each call
writes the value it placed in memory through to the persisted store, the
final persisted value of each field equals the last value set for that
field, and in-memory and persisted copies never diverge. -/
theorem c4_pref_write_through_last_write_wins
    (m : AppModel) (acts : List App.PrefAction) (h : App.prefsSynced m) :
    (App.runPrefActions m acts).prefs.browsePageGameScale
        = App.lastScaleD m.prefs.browsePageGameScale acts ∧
    (App.runPrefActions m acts).prefs.browsePageLayout
        = App.lastLayoutD m.prefs.browsePageLayout acts ∧
    (App.runPrefActions m acts).prefs.browsePageShowExtreme
        = App.lastExtremeD m.prefs.browsePageShowExtreme acts ∧
    App.prefsSynced (App.runPrefActions m acts) := by
  induction acts generalizing m with
  | nil => exact ⟨rfl, rfl, rfl, h⟩
  | cons a rest ih =>
    cases a with
    | setScale v =>
      have := ih (App.applyPrefAction m (.setScale v))
        (prefsSynced_applyPrefAction m (.setScale v) h)
      simpa [App.runPrefActions, App.applyPrefAction, App.onScaleSliderChange,
        App.lastScaleD, App.lastLayoutD, App.lastExtremeD] using this
    | setLayout v =>
      have := ih (App.applyPrefAction m (.setLayout v))
        (prefsSynced_applyPrefAction m (.setLayout v) h)
      simpa [App.runPrefActions, App.applyPrefAction, App.onLayoutSelectorChange,
        App.lastScaleD, App.lastLayoutD, App.lastExtremeD] using this
    | setExtreme b =>
      have := ih (App.applyPrefAction m (.setExtreme b))
        (prefsSynced_applyPrefAction m (.setExtreme b) h)
      simpa [App.runPrefActions, App.applyPrefAction, App.onExtremeChange,
        App.lastScaleD, App.lastLayoutD, App.lastExtremeD] using this
    | orderChange e =>
      have := ih (App.applyPrefAction m (.orderChange e))
        (prefsSynced_applyPrefAction m (.orderChange e) h)
      simpa [App.runPrefActions, App.applyPrefAction, App.onOrderChange,
        App.lastScaleD, App.lastLayoutD, App.lastExtremeD] using this

/-- Witness for C4 at the concrete sample model and an explicit call
sequence ending in a second scale write. -/
theorem c4_pref_write_through_last_write_wins_witness :
    App.prefsSynced sampleModel ∧
    ((App.runPrefActions sampleModel
          [.setScale 2, .setExtreme true, .setScale (3 / 2)]).prefs.browsePageGameScale
        = App.lastScaleD sampleModel.prefs.browsePageGameScale
            [.setScale 2, .setExtreme true, .setScale (3 / 2)] ∧
      (App.runPrefActions sampleModel
          [.setScale 2, .setExtreme true, .setScale (3 / 2)]).prefs.browsePageLayout
        = App.lastLayoutD sampleModel.prefs.browsePageLayout
            [.setScale 2, .setExtreme true, .setScale (3 / 2)] ∧
      (App.runPrefActions sampleModel
          [.setScale 2, .setExtreme true, .setScale (3 / 2)]).prefs.browsePageShowExtreme
        = App.lastExtremeD sampleModel.prefs.browsePageShowExtreme
            [.setScale 2, .setExtreme true, .setScale (3 / 2)] ∧
      App.prefsSynced (App.runPrefActions sampleModel
          [.setScale 2, .setExtreme true, .setScale (3 / 2)])) :=
  ⟨by decide,
   c4_pref_write_through_last_write_wins sampleModel
     [.setScale 2, .setExtreme true, .setScale (3 / 2)] (by decide)⟩

/-- C5: a search submission arms the gate; the next render pass emits
exactly one navigation instruction to the browse view and unconditionally
disarms the gate; the render pass after that emits none; and no handler
other than a search submission can arm the gate from the disarmed state. -/
theorem c5_search_gate_one_shot
    (m : AppModel) (e : ISearchOnSearchEvent) (h : m.onSearchFlag = false) :
    (App.renderRedirect (App.onSearch m e)).1
        = some { toPath := Paths.browse, push := true } ∧
    (App.renderRedirect (App.onSearch m e)).2.onSearchFlag = false ∧
    (App.renderRedirect ((App.renderRedirect (App.onSearch m e)).2)).1 = none ∧
    (∀ ev : App.OtherEvent, (App.applyOther m ev).onSearchFlag = false) := by
  refine ⟨rfl, rfl, rfl, ?_⟩
  intro ev
  cases ev with
  | pref a =>
    cases a <;>
      simpa [App.applyOther, App.applyPrefAction, App.onScaleSliderChange,
        App.onLayoutSelectorChange, App.onExtremeChange, App.onOrderChange] using h
  | logUpdate s => simpa [App.applyOther, App.onLogDataUpdate] using h
  | dataLoaded g c => simpa [App.applyOther, App.onDataLoaded] using h
  | renderPass => simp [App.applyOther, App.renderRedirect, h]

/-- Witness for C5 at the concrete sample model, whose gate starts
disarmed. -/
theorem c5_search_gate_one_shot_witness :
    sampleModel.onSearchFlag = false ∧
    (App.renderRedirect (App.onSearch sampleModel { input := "sonic" })).1
      = some { toPath := Paths.browse, push := true } :=
  ⟨rfl, (c5_search_gate_one_shot sampleModel { input := "sonic" } rfl).1⟩

/-- C8: each delivered log snapshot replaces the displayed log text
wholesale: after any sequence of pushes, the displayed text is the last
snapshot pushed; in particular pushing "line1" then "line2" displays
"line2", not "line1line2". -/
theorem c8_log_snapshot_replaces_wholesale
    (m : AppModel) (snaps : List String) :
    (snaps.foldl App.onLogDataUpdate m).state.logData
        = snaps.getLastD m.state.logData ∧
    (["line1", "line2"].foldl App.onLogDataUpdate m).state.logData = "line2" := by
  refine ⟨?_, rfl⟩
  induction snaps generalizing m with
  | nil => rfl
  | cons s rest ih =>
    rw [List.foldl_cons, getLastD_cons_eq]
    exact ih (App.onLogDataUpdate m s)

/-- C9: on mount the listener is attached and the replay request delivers
exactly one snapshot, which is the channel's full buffer — including
messages emitted before subscription; after unmount, any further pushes
leave the component untouched and deliver nothing. -/
theorem c9_log_bridge_lifecycle (s : SystemModel) (lines : List String) :
    (stepLog s .mountEv).app.state.logData = s.channel.log ∧
    (stepLog s .mountEv).delivered = s.delivered + 1 ∧
    ((lines.map LogEvent.emit).foldl stepLog (stepLog s .unmountEv)).app
        = (stepLog s .unmountEv).app ∧
    ((lines.map LogEvent.emit).foldl stepLog (stepLog s .unmountEv)).delivered
        = s.delivered := by
  refine ⟨?_, ?_, ?_, ?_⟩
  · simp [stepLog, deliverSnapshot, App.onLogDataUpdate]
  · simp [stepLog, deliverSnapshot]
  · exact (emits_preserve_detached (stepLog s .unmountEv) rfl lines).1
  · exact (emits_preserve_detached (stepLog s .unmountEv) rfl lines).2.1

/-- C10: each preference setter modifies only its own field, leaving every
other in-memory field and every other persisted field unchanged; an
order-change event updates only the in-memory order value and writes
nothing to the persisted store. -/
theorem c10_setters_frame_conditions
    (m : AppModel) (v : ℚ) (lv : BrowsePageLayout) (b : Bool)
    (e : IGameOrderChangeEvent) :
    ((App.onScaleSliderChange m v).state.gameLayout = m.state.gameLayout ∧
     (App.onScaleSliderChange m v).state.showExtreme = m.state.showExtreme ∧
     (App.onScaleSliderChange m v).state.central = m.state.central ∧
     (App.onScaleSliderChange m v).state.search = m.state.search ∧
     (App.onScaleSliderChange m v).state.order = m.state.order ∧
     (App.onScaleSliderChange m v).state.logData = m.state.logData ∧
     (App.onScaleSliderChange m v).state.config = m.state.config ∧
     (App.onScaleSliderChange m v).state.useCustomTitlebar = m.state.useCustomTitlebar ∧
     (App.onScaleSliderChange m v).prefs.browsePageLayout = m.prefs.browsePageLayout ∧
     (App.onScaleSliderChange m v).prefs.browsePageShowExtreme = m.prefs.browsePageShowExtreme) ∧
    ((App.onLayoutSelectorChange m lv).state.gameScale = m.state.gameScale ∧
     (App.onLayoutSelectorChange m lv).state.showExtreme = m.state.showExtreme ∧
     (App.onLayoutSelectorChange m lv).state.central = m.state.central ∧
     (App.onLayoutSelectorChange m lv).state.search = m.state.search ∧
     (App.onLayoutSelectorChange m lv).state.order = m.state.order ∧
     (App.onLayoutSelectorChange m lv).state.logData = m.state.logData ∧
     (App.onLayoutSelectorChange m lv).state.config = m.state.config ∧
     (App.onLayoutSelectorChange m lv).state.useCustomTitlebar = m.state.useCustomTitlebar ∧
     (App.onLayoutSelectorChange m lv).prefs.browsePageGameScale = m.prefs.browsePageGameScale ∧
     (App.onLayoutSelectorChange m lv).prefs.browsePageShowExtreme = m.prefs.browsePageShowExtreme) ∧
    ((App.onExtremeChange m b).state.gameScale = m.state.gameScale ∧
     (App.onExtremeChange m b).state.gameLayout = m.state.gameLayout ∧
     (App.onExtremeChange m b).state.central = m.state.central ∧
     (App.onExtremeChange m b).state.search = m.state.search ∧
     (App.onExtremeChange m b).state.order = m.state.order ∧
     (App.onExtremeChange m b).state.logData = m.state.logData ∧
     (App.onExtremeChange m b).state.config = m.state.config ∧
     (App.onExtremeChange m b).state.useCustomTitlebar = m.state.useCustomTitlebar ∧
     (App.onExtremeChange m b).prefs.browsePageGameScale = m.prefs.browsePageGameScale ∧
     (App.onExtremeChange m b).prefs.browsePageLayout = m.prefs.browsePageLayout) ∧
    ((App.onOrderChange m e).prefs = m.prefs ∧
     (App.onOrderChange m e).state.gameScale = m.state.gameScale ∧
     (App.onOrderChange m e).state.gameLayout = m.state.gameLayout ∧
     (App.onOrderChange m e).state.showExtreme = m.state.showExtreme ∧
     (App.onOrderChange m e).state.central = m.state.central ∧
     (App.onOrderChange m e).state.search = m.state.search ∧
     (App.onOrderChange m e).state.logData = m.state.logData ∧
     (App.onOrderChange m e).state.config = m.state.config ∧
     (App.onOrderChange m e).state.useCustomTitlebar = m.state.useCustomTitlebar ∧
     (App.onOrderChange m e).onSearchFlag = m.onSearchFlag) :=
  ⟨⟨rfl, rfl, rfl, rfl, rfl, rfl, rfl, rfl, rfl, rfl⟩,
   ⟨rfl, rfl, rfl, rfl, rfl, rfl, rfl, rfl, rfl, rfl⟩,
   ⟨rfl, rfl, rfl, rfl, rfl, rfl, rfl, rfl, rfl, rfl⟩,
   ⟨rfl, rfl, rfl, rfl, rfl, rfl, rfl, rfl, rfl, rfl⟩⟩

end Launcher
